import Mathlib

/-!
Shallow embedding of the openera-backend authentication core
(src/services/authService.ts, src/services/auditService.ts,
src/controllers/authController.ts, src/middleware/rateLimit.ts,
src/validators/validation.ts, the PasswordUtils class, and the wiring in
src/routes/authRoutes.ts), together with theorems settling the claims
about refresh-token rotation, login error behaviour, password change,
logout, rate limiting and audit logging.

Modelling conventions:
* ids (cuid strings in the source) are `Nat`; Prisma's cuid freshness is
  modelled by a `nextId` counter in the database state, with the invariant
  that every stored id is below it;
* timestamps (`Date`) are `Nat` (milliseconds); `new Date()` is a `now`
  parameter threaded through each operation;
* a JWT refresh token is its verified payload `{adminId, tokenId}`
  (`RefreshTokenPayload` in src/utils/jwt.ts); claims under study only
  concern tokens whose signature verifies, so `JWTUtils.verifyRefreshToken`
  is the identity on this representation;
* bcrypt is modelled by an injective tagging function: `hashPassword p`
  prefixes a tag, `comparePassword p h` checks `h = hashPassword p`, which
  is the correctness contract of `bcrypt.hash`/`bcrypt.compare`;
* the empty-string placeholder token that `prisma.refreshToken.create`
  first stores (before the follow-up `update` fills it in) is `none`;
  the `token String @unique` constraint of prisma/schema.prisma therefore
  makes a `create` throw when another record still holds `none`, and
  `prisma.refreshToken.delete` throws (P2025) when the row is gone; both
  throws land in the service's catch block, which returns the generic
  failure response;
* HTTP response bodies are `(status, success, message)`; the per-request
  `timestamp` and `requestId` fields vary on every call in the source and
  are outside every claim, so they are not modelled.
-/

/-- Operator account row (`model Admin` in prisma/schema.prisma). -/
structure Admin where
  id : Nat
  email : String
  password : String
  name : String
  role : String
  isActive : Bool
  lastLoginAt : Option Nat
deriving Repr, DecidableEq

/-- Verified payload of a refresh JWT (`RefreshTokenPayload` in src/utils/jwt.ts). -/
structure RefreshJwt where
  adminId : Nat
  tokenId : Nat
deriving Repr, DecidableEq

/-- Refresh token row (`model RefreshToken` in prisma/schema.prisma).
`token = none` is the empty-string placeholder written by `create` before
the follow-up `update` stores the signed token. -/
structure RefreshTokenRecord where
  id : Nat
  token : Option RefreshJwt
  adminId : Nat
  expiresAt : Nat
deriving Repr, DecidableEq

/-- Audit log row (`model AuditLog` in prisma/schema.prisma); only the
fields the authentication flows write. -/
structure AuditLog where
  action : String
  entityType : String
  entityId : Nat
  description : String
  adminId : Option Nat
deriving Repr, DecidableEq

/-- The durable state touched by the authentication core: the three Prisma
collections plus the fresh-id source for created rows. -/
structure DB where
  admins : List Admin
  refreshTokens : List RefreshTokenRecord
  auditLogs : List AuditLog
  nextId : Nat
deriving Repr, DecidableEq

/-- Claims of an access JWT (`TokenPayload` in src/utils/jwt.ts); stateless,
  never persisted. -/
structure AccessClaims where
  adminId : Nat
  email : String
  role : String
deriving Repr, DecidableEq

/-- Model of `bcrypt.hash` (PasswordUtils.hashPassword): an injective
one-way tagging of the password. -/
def hashPassword (p : String) : String := "bcrypt$" ++ p

/-- Model of `bcrypt.compare` (PasswordUtils.comparePassword): true exactly
when the stored hash is the hash of the candidate. -/
def comparePassword (password hash : String) : Bool :=
  hash == hashPassword password

/-- Service-layer result (`ServiceResponse` in src/types): either a success
payload or the error string the service returns. -/
inductive SResp (α : Type) where
  | ok (data : α)
  | err (msg : String)
deriving Repr, DecidableEq

/-- True when the service response is a success. -/
def SResp.success {α : Type} : SResp α → Bool
  | .ok _ => true
  | .err _ => false

/-- HTTP-level reply assembled by the controllers: status code, success
flag and message. -/
structure HttpResp where
  status : Nat
  success : Bool
  message : String
deriving Repr, DecidableEq

namespace PasswordUtils

/-- The character class `[A-Z]` used by `/[A-Z]/.test(password)`. -/
def isUpperAZ (c : Char) : Bool := 'A' ≤ c && c ≤ 'Z'

/-- The character class `[a-z]` used by `/[a-z]/.test(password)`. -/
def isLowerAZ (c : Char) : Bool := 'a' ≤ c && c ≤ 'z'

/-- The character class `\d` used by `/\d/.test(password)`. -/
def isDigit09 (c : Char) : Bool := '0' ≤ c && c ≤ '9'

/-- The special-character class shared by PasswordUtils.validatePasswordStrength
and the newPassword rule of adminChangePasswordValidation. -/
def specialChars : List Char := "!@#$%^&*(),.?\":\x7b\x7d|<>".data

/-- Membership test for the special-character class. -/
def isSpecial (c : Char) : Bool := specialChars.contains c

/-- Whether the string contains a character of the class (the `.test` of a
single-character-class regex). -/
def containsClass (p : String) (cls : Char → Bool) : Bool := p.data.any cls

/-- JavaScript `String.prototype.toLowerCase` restricted to ASCII, which is
all the denylist comparison can distinguish. -/
def jsToLower (p : String) : String :=
  String.mk (p.data.map (fun c => if isUpperAZ c then Char.ofNat (c.toNat + 32) else c))

/-- The `commonPasswords` denylist of PasswordUtils.validatePasswordStrength. -/
def commonPasswords : List String :=
  ["password", "123456", "123456789", "qwerty", "abc123",
   "password123", "admin", "letmein", "welcome", "123123"]

/-- PasswordUtils.validatePasswordStrength: the accumulated `errors` array. -/
def strengthErrors (password : String) : List String :=
  (if password.length < 8 then ["Password must be at least 8 characters long"] else []) ++
  (if password.length > 128 then ["Password must be less than 128 characters long"] else []) ++
  (if !containsClass password isUpperAZ then ["Password must contain at least one uppercase letter"] else []) ++
  (if !containsClass password isLowerAZ then ["Password must contain at least one lowercase letter"] else []) ++
  (if !containsClass password isDigit09 then ["Password must contain at least one number"] else []) ++
  (if !containsClass password isSpecial then ["Password must contain at least one special character"] else []) ++
  (if commonPasswords.contains (jsToLower password) then ["Password is too common"] else [])

/-- PasswordUtils.validatePasswordStrength: `isValid` is `errors.length === 0`. -/
def validatePasswordStrength (password : String) : Bool :=
  (strengthErrors password).isEmpty

end PasswordUtils

namespace AuditService

/-- AuditService.createAuditLog: inserts the audit row. A storage failure
(`auditOk = false`, the prisma insert throwing) is caught inside the
function, which returns the failure response with nothing written; the
function itself never throws to its caller. -/
def createAuditLog (db : DB) (auditOk : Bool) (log : AuditLog) : SResp AuditLog × DB :=
  if auditOk then
    (.ok log, { db with auditLogs := db.auditLogs ++ [log] })
  else
    (.err "Failed to create audit log", db)

/-- AuditService.logAdminLogin: a LOGIN audit row for the admin; the
createAuditLog response is discarded. -/
def logAdminLogin (db : DB) (auditOk : Bool) (adminId : Nat) (adminEmail : String) : DB :=
  (createAuditLog db auditOk
    { action := "LOGIN", entityType := "admin", entityId := adminId,
      description := "Admin " ++ adminEmail ++ " logged in",
      adminId := some adminId }).2

/-- AuditService.logAdminLogout: a LOGOUT audit row for the admin; the
createAuditLog response is discarded. -/
def logAdminLogout (db : DB) (auditOk : Bool) (adminId : Nat) (adminEmail : String) : DB :=
  (createAuditLog db auditOk
    { action := "LOGOUT", entityType := "admin", entityId := adminId,
      description := "Admin " ++ adminEmail ++ " logged out",
      adminId := some adminId }).2

end AuditService

/-- Login request body (`LoginRequest` in src/types). -/
structure LoginRequest where
  email : String
  password : String
deriving Repr, DecidableEq

/-- Change-password request body (`ChangePasswordRequest` in src/types).
The service layer reads only `currentPassword` and `newPassword`;
`confirmPassword` is consumed by the validator chain. -/
structure ChangePasswordRequest where
  currentPassword : String
  newPassword : String
  confirmPassword : String
deriving Repr, DecidableEq

/-- Payload of a successful login (`LoginResponse` in src/types). -/
structure LoginData where
  accessToken : AccessClaims
  refreshToken : RefreshJwt
  adminId : Nat
  adminEmail : String
  adminName : String
  adminRole : String
deriving Repr, DecidableEq

namespace AuthService

/-- JWTUtils.generateAccessToken applied to the admin row's payload
(stateless; modelled by its claims). -/
def generateAccessToken (a : Admin) : AccessClaims :=
  { adminId := a.id, email := a.email, role := a.role }

/-- The 7-day refresh lifetime (`7 * 24 * 60 * 60 * 1000` ms) used by
login and refreshToken. -/
def refreshTtlMs : Nat := 7 * 24 * 60 * 60 * 1000

/-- AuthService.login (src/services/authService.ts lines 18-142): look up
by email, check isActive, compare the password, then create the refresh
record (placeholder token, then update), stamp lastLoginAt, append the
LOGIN audit row, and return both tokens. -/
def login (db : DB) (credentials : LoginRequest) (now : Nat) (auditOk : Bool) :
    SResp LoginData × DB :=
  match db.admins.find? (fun a => a.email == credentials.email) with
  | none => (.err "Invalid email or password", db)
  | some admin =>
    if !admin.isActive then
      (.err "Account is disabled", db)
    else if !comparePassword credentials.password admin.password then
      (.err "Invalid email or password", db)
    else if db.refreshTokens.any (fun r => r.token == none) then
      (.err "Login failed", db)
    else
      let accessToken := generateAccessToken admin
      let recId := db.nextId
      let created : RefreshTokenRecord :=
        { id := recId, token := none, adminId := admin.id, expiresAt := now + refreshTtlMs }
      let refreshTok : RefreshJwt := { adminId := admin.id, tokenId := recId }
      let tokens :=
        (db.refreshTokens ++ [created]).map
          (fun r => if r.id == recId then { r with token := some refreshTok } else r)
      let admins :=
        db.admins.map (fun a => if a.id == admin.id then { a with lastLoginAt := some now } else a)
      let db1 : DB := { db with admins := admins, refreshTokens := tokens, nextId := recId + 1 }
      let db2 := AuditService.logAdminLogin db1 auditOk admin.id admin.email
      (.ok { accessToken := accessToken, refreshToken := refreshTok,
             adminId := admin.id, adminEmail := admin.email,
             adminName := admin.name, adminRole := admin.role }, db2)

/-- AuthService.refreshToken (src/services/authService.ts lines 147-267):
verify the token, find the record by embedded id and token value, delete it
when expired, reject inactive accounts, otherwise create the replacement
record (placeholder then update), delete the old record, and return the new
pair. The two explicit failure throws of the underlying store are modelled:
a placeholder-token unique-constraint collision on create, and the missing
related admin row; both are caught and reported as the generic failure. -/
def refreshToken (db : DB) (tok : RefreshJwt) (now : Nat) :
    SResp (AccessClaims × RefreshJwt) × DB :=
  match db.refreshTokens.find? (fun r => r.id == tok.tokenId && r.token == some tok) with
  | none => (.err "Invalid refresh token", db)
  | some tokenRecord =>
    if tokenRecord.expiresAt < now then
      (.err "Refresh token expired",
       { db with refreshTokens := db.refreshTokens.filter (fun r => r.id != tokenRecord.id) })
    else
      match db.admins.find? (fun a => a.id == tokenRecord.adminId) with
      | none => (.err "Token refresh failed", db)
      | some admin =>
        if !admin.isActive then
          (.err "Account is disabled", db)
        else if db.refreshTokens.any (fun r => r.token == none) then
          (.err "Token refresh failed", db)
        else
          let newAccess := generateAccessToken admin
          let newId := db.nextId
          let created : RefreshTokenRecord :=
            { id := newId, token := none, adminId := tokenRecord.adminId,
              expiresAt := now + refreshTtlMs }
          let newTok : RefreshJwt := { adminId := tokenRecord.adminId, tokenId := newId }
          let afterUpdate :=
            (db.refreshTokens ++ [created]).map
              (fun r => if r.id == newId then { r with token := some newTok } else r)
          let afterDelete := afterUpdate.filter (fun r => r.id != tokenRecord.id)
          (.ok (newAccess, newTok),
           { db with refreshTokens := afterDelete, nextId := newId + 1 })

/-- AuthService.logout (src/services/authService.ts lines 272-323): find
the record matching both the token value and the owner; when present delete
it and append a LOGOUT audit row; in every case answer success. -/
def logout (db : DB) (tok : RefreshJwt) (adminId : Nat) (auditOk : Bool) :
    SResp Bool × DB :=
  match db.refreshTokens.find? (fun r => r.token == some tok && r.adminId == adminId) with
  | none => (.ok true, db)
  | some tokenRecord =>
    let db1 : DB :=
      { db with refreshTokens := db.refreshTokens.filter (fun r => r.id != tokenRecord.id) }
    let email := ((db.admins.find? (fun a => a.id == tokenRecord.adminId)).map Admin.email).getD ""
    (.ok true, AuditService.logAdminLogout db1 auditOk adminId email)

/-- AuthService.changePassword (src/services/authService.ts lines 328-424):
find the admin, compare the current password, validate the new password's
strength, store the new hash, delete every refresh token of the admin, and
append an UPDATE audit row whose createAuditLog response is discarded. -/
def changePassword (db : DB) (adminId : Nat) (passwordData : ChangePasswordRequest)
    (auditOk : Bool) : SResp Bool × DB :=
  match db.admins.find? (fun a => a.id == adminId) with
  | none => (.err "Admin not found", db)
  | some admin =>
    if !comparePassword passwordData.currentPassword admin.password then
      (.err "Current password is incorrect", db)
    else if !PasswordUtils.validatePasswordStrength passwordData.newPassword then
      (.err "Password does not meet security requirements", db)
    else
      let hashed := hashPassword passwordData.newPassword
      let admins :=
        db.admins.map (fun a => if a.id == adminId then { a with password := hashed } else a)
      let tokens := db.refreshTokens.filter (fun r => r.adminId != adminId)
      let db1 : DB := { db with admins := admins, refreshTokens := tokens }
      let db2 :=
        (AuditService.createAuditLog db1 auditOk
          { action := "UPDATE", entityType := "admin", entityId := adminId,
            description := "Password changed", adminId := some adminId }).2
      (.ok true, db2)

end AuthService

namespace AuthController

/-- AuthController.login: 401 with the service's message on failure, 200 on
success. -/
def login (db : DB) (credentials : LoginRequest) (now : Nat) (auditOk : Bool) :
    HttpResp × DB :=
  let (result, db') := AuthService.login db credentials now auditOk
  match result with
  | .err m => ({ status := 401, success := false, message := m }, db')
  | .ok _ => ({ status := 200, success := true, message := "Login successful" }, db')

/-- AuthController.refreshToken: 401 with the service's message on failure,
200 on success. -/
def refreshTokenCtrl (db : DB) (tok : RefreshJwt) (now : Nat) : HttpResp × DB :=
  let (result, db') := AuthService.refreshToken db tok now
  match result with
  | .err m => ({ status := 401, success := false, message := m }, db')
  | .ok _ => ({ status := 200, success := true, message := "Token refreshed successfully" }, db')

/-- AuthController.changePassword: 400 with the service's message on
failure, 200 on success. -/
def changePasswordCtrl (db : DB) (adminId : Nat) (passwordData : ChangePasswordRequest)
    (auditOk : Bool) : HttpResp × DB :=
  let (result, db') := AuthService.changePassword db adminId passwordData auditOk
  match result with
  | .err m => ({ status := 400, success := false, message := m }, db')
  | .ok _ =>
    ({ status := 200, success := true,
       message := "Password changed successfully. Please login again." }, db')

/-- AuthController.revokeAllSessions: deleteMany of the admin's refresh
tokens, an audit row whose createAuditLog response is discarded, then a 200
reply carrying the count. -/
def revokeAllSessions (db : DB) (adminId : Nat) (auditOk : Bool) :
    (HttpResp × Nat) × DB :=
  let count := (db.refreshTokens.filter (fun r => r.adminId == adminId)).length
  let db1 : DB := { db with refreshTokens := db.refreshTokens.filter (fun r => r.adminId != adminId) }
  let db2 :=
    (AuditService.createAuditLog db1 auditOk
      { action := "LOGOUT", entityType := "admin", entityId := adminId,
        description := "All sessions revoked", adminId := some adminId }).2
  (({ status := 200, success := true,
      message := "Successfully revoked " ++ toString count ++ " active sessions" }, count), db2)

end AuthController

/-- The adminChangePasswordValidation chain of src/validators/validation.ts:
currentPassword non-empty; newPassword of length at least 8 containing a
lower-case letter, an upper-case letter, a digit and a special character;
confirmPassword equal to newPassword. -/
def adminChangePasswordValidation (req : ChangePasswordRequest) : Bool :=
  (1 ≤ req.currentPassword.length) &&
  (8 ≤ req.newPassword.length) &&
  PasswordUtils.containsClass req.newPassword PasswordUtils.isLowerAZ &&
  PasswordUtils.containsClass req.newPassword PasswordUtils.isUpperAZ &&
  PasswordUtils.containsClass req.newPassword PasswordUtils.isDigit09 &&
  PasswordUtils.containsClass req.newPassword PasswordUtils.isSpecial &&
  (req.confirmPassword == req.newPassword)

/-- The adminLoginValidation chain of src/validators/validation.ts:
the body must carry an email-shaped address and a password of length at
least 6 (isEmail is abstracted to the presence of an `@`). -/
def adminLoginValidation (req : LoginRequest) : Bool :=
  req.email.data.contains '@' && 6 ≤ req.password.length

/-- The PUT /auth/change-password pipeline of src/routes/authRoutes.ts:
handleValidation turns a failed adminChangePasswordValidation into a 400
reply before the controller runs (the stateless authenticateToken step is
assumed passed, `adminId` being the bearer's id). -/
def changePasswordRoute (db : DB) (adminId : Nat) (req : ChangePasswordRequest)
    (auditOk : Bool) : HttpResp × DB :=
  if !adminChangePasswordValidation req then
    ({ status := 400, success := false, message := "Validation failed" }, db)
  else
    AuthController.changePasswordCtrl db adminId req auditOk

/-- Counter state of one express-rate-limit instance: its MemoryStore
holds a hit count per client key and clears every count when the window
elapses. -/
structure RateLimiterState where
  windowStart : Nat
  hits : List (String × Nat)
deriving Repr, DecidableEq

/-- The 15-minute window shared by authRateLimit and adminRateLimit in
src/middleware/rateLimit.ts. -/
def rateLimitWindowMs : Nat := 15 * 60 * 1000

/-- authRateLimit.max in src/middleware/rateLimit.ts: 10 attempts per
window. This limiter is defined for the authentication endpoints but never
attached to any route. -/
def authRateLimitMax : Nat := 10

/-- adminRateLimit.max in src/middleware/rateLimit.ts: 200 requests per
window. This is the limiter src/routes/authRoutes.ts actually attaches to
POST /auth/login and POST /auth/refresh. -/
def adminRateLimitMax : Nat := 200

/-- One request through an express-rate-limit instance: reset the store
when the window elapsed, increment the key's counter, and admit exactly
when the count stays within `maxHits`. -/
def rateLimitHit (windowMs maxHits : Nat) (st : RateLimiterState) (key : String) (now : Nat) :
    Bool × RateLimiterState :=
  let st1 := if st.windowStart + windowMs ≤ now then { windowStart := now, hits := [] } else st
  let current := ((st1.hits.find? (fun kv => kv.1 == key)).map Prod.snd).getD 0
  let newCount := current + 1
  let hits :=
    if (st1.hits.find? (fun kv => kv.1 == key)).isSome then
      st1.hits.map (fun kv => if kv.1 == key then (kv.1, newCount) else kv)
    else
      st1.hits ++ [(key, newCount)]
  (newCount ≤ maxHits, { st1 with hits := hits })

/-- The POST /auth/login pipeline, parameterized by the limiter budget so
that the wired limiter (adminRateLimit, budget 200) and the defined-but-
unwired authRateLimit (budget 10) can be compared. Denials answer 429 with
the limiter's handler message; admitted requests flow through validation
into AuthController.login. -/
def loginRoute (maxHits : Nat) (rl : RateLimiterState) (db : DB) (req : LoginRequest)
    (clientKey : String) (now : Nat) (auditOk : Bool) :
    HttpResp × RateLimiterState × DB :=
  let (allowed, rl') := rateLimitHit rateLimitWindowMs maxHits rl clientKey now
  if !allowed then
    ({ status := 429, success := false,
       message := "Too many requests. Please try again later." }, rl', db)
  else if !adminLoginValidation req then
    ({ status := 400, success := false, message := "Validation failed" }, rl', db)
  else
    let (resp, db') := AuthController.login db req now auditOk
    (resp, rl', db')

/-- `n` consecutive login attempts from one client inside one window,
returning the list of HTTP statuses in order. -/
def loginAttemptStatuses (maxHits : Nat) (rl : RateLimiterState) (db : DB)
    (req : LoginRequest) (clientKey : String) (now : Nat) (auditOk : Bool) :
    Nat → List Nat
  | 0 => []
  | n + 1 =>
    let (resp, rl', db') := loginRoute maxHits rl db req clientKey now auditOk
    resp.status :: loginAttemptStatuses maxHits rl' db' req clientKey now auditOk n

/-- A refresh-token row of a quiescent database state is coherent: its
token column is filled in and embeds the row's own id and owner (which is
how login and refreshToken build every row they commit). -/
def RefreshTokenRecord.coherent (r : RefreshTokenRecord) : Bool :=
  match r.token with
  | none => false
  | some t => t.tokenId == r.id && t.adminId == r.adminId

/-- Invariant of quiescent database states: row ids are distinct and below
the fresh-id source, and every row is coherent. All states the service
commits between requests satisfy it. -/
def DB.wf (db : DB) : Prop :=
  (db.refreshTokens.map (fun r => r.id)).Nodup ∧
  (∀ r ∈ db.refreshTokens, r.id < db.nextId) ∧
  (∀ r ∈ db.refreshTokens, r.coherent = true)

instance (db : DB) : Decidable db.wf := by
  unfold DB.wf; infer_instance

/-!
Interleaving model for concurrent rotations (claim C2). The body of
AuthService.refreshToken is cut at its database-access points — the awaits
on the backing store: the findUnique (whose include also loads the admin
row), the create of the placeholder row, the update filling in its token,
and the delete of the consumed row. The pure checks between two accesses
belong to the step ending at the next access. The expiry branch's delete is
folded into the find step; it never fires in the unexpired initial states
studied here. Two calls sharing one token run these steps under an
arbitrary interleaving chosen by a schedule of booleans (false steps the
first call, true the second); stepping a finished call is a no-op.
-/

/-- Program counter of one in-flight refreshToken call, naming the next
database access it will perform. -/
inductive RotPhase where
  | atFind
  | atCreate
  | atUpdate
  | atDelete
  | finished
deriving Repr, DecidableEq

/-- One in-flight refreshToken call: the token it rotates, the id its
replacement row will receive (cuids never collide), its program counter,
the row its findUnique returned, and its response once finished. -/
structure RotThread where
  tok : RefreshJwt
  myId : Nat
  phase : RotPhase
  found : Option RefreshTokenRecord
  result : Option (SResp Unit)
deriving Repr, DecidableEq

/-- One database access of an in-flight refreshToken call, following
src/services/authService.ts lines 156-242. The store's throws — the
unique-constraint collision when another placeholder row exists at the
create, and P2025 when the delete finds its row already gone — are caught
by the service's catch block, which reports the generic failure and rolls
nothing back. -/
def rotStep (now : Nat) (db : DB) (th : RotThread) : DB × RotThread :=
  match th.phase with
  | .finished => (db, th)
  | .atFind =>
    match db.refreshTokens.find? (fun r => r.id == th.tok.tokenId && r.token == some th.tok) with
    | none => (db, { th with phase := .finished, result := some (.err "Invalid refresh token") })
    | some rec0 =>
      if rec0.expiresAt < now then
        ({ db with refreshTokens := db.refreshTokens.filter (fun r => r.id != rec0.id) },
         { th with phase := .finished, result := some (.err "Refresh token expired") })
      else
        match db.admins.find? (fun a => a.id == rec0.adminId) with
        | none => (db, { th with phase := .finished, result := some (.err "Token refresh failed") })
        | some admin =>
          if !admin.isActive then
            (db, { th with phase := .finished, result := some (.err "Account is disabled") })
          else
            (db, { th with phase := .atCreate, found := some rec0 })
  | .atCreate =>
    match th.found with
    | none => (db, { th with phase := .finished, result := some (.err "Token refresh failed") })
    | some rec0 =>
      if db.refreshTokens.any (fun r => r.token == none) then
        (db, { th with phase := .finished, result := some (.err "Token refresh failed") })
      else
        let created : RefreshTokenRecord :=
          { id := th.myId, token := none, adminId := rec0.adminId,
            expiresAt := now + AuthService.refreshTtlMs }
        ({ db with refreshTokens := db.refreshTokens ++ [created] },
         { th with phase := .atUpdate })
  | .atUpdate =>
    match th.found with
    | none => (db, { th with phase := .finished, result := some (.err "Token refresh failed") })
    | some rec0 =>
      let newTok : RefreshJwt := { adminId := rec0.adminId, tokenId := th.myId }
      let updated :=
        db.refreshTokens.map (fun r => if r.id == th.myId then { r with token := some newTok } else r)
      ({ db with refreshTokens := updated },
       { th with phase := .atDelete })
  | .atDelete =>
    match th.found with
    | none => (db, { th with phase := .finished, result := some (.err "Token refresh failed") })
    | some rec0 =>
      if db.refreshTokens.any (fun r => r.id == rec0.id) then
        ({ db with refreshTokens := db.refreshTokens.filter (fun r => r.id != rec0.id) },
         { th with phase := .finished, result := some (.ok ()) })
      else
        (db, { th with phase := .finished, result := some (.err "Token refresh failed") })

/-- Whether the call has finished with the success response. -/
def RotThread.succeeded (th : RotThread) : Bool :=
  th.result == some (.ok ())

/-- Both in-flight calls and the shared database. -/
structure RaceState where
  db : DB
  t1 : RotThread
  t2 : RotThread
deriving Repr, DecidableEq

/-- Step the call the schedule picks: false steps the first, true the
second. -/
def raceStep (now : Nat) (s : RaceState) (pick : Bool) : RaceState :=
  if pick then
    let (db', t2') := rotStep now s.db s.t2
    { s with db := db', t2 := t2' }
  else
    let (db', t1') := rotStep now s.db s.t1
    { s with db := db', t1 := t1' }

/-- Run a schedule to its end. -/
def raceRun (now : Nat) (s : RaceState) : List Bool → RaceState
  | [] => s
  | b :: rest => raceRun now (raceStep now s b) rest

/-- All boolean schedules of the given length. -/
def boolLists : Nat → List (List Bool)
  | 0 => [[]]
  | n + 1 => (boolLists n).flatMap (fun l => [false :: l, true :: l])

/-- The account owning the raced token. -/
def raceAdmin : Admin :=
  { id := 1, email := "ops@example.com", password := hashPassword "Secret1!",
    name := "Ops", role := "admin", isActive := true, lastLoginAt := none }

/-- The freshly issued refresh token both calls present. -/
def raceTok : RefreshJwt := { adminId := 1, tokenId := 10 }

/-- Quiescent initial database: one active admin, one live unexpired
refresh-token row for `raceTok`. -/
def raceDB : DB :=
  { admins := [raceAdmin],
    refreshTokens := [{ id := 10, token := some raceTok, adminId := 1, expiresAt := 1000 }],
    auditLogs := [],
    nextId := 11 }

/-- The instant at which both calls run; the token is unexpired. -/
def raceNow : Nat := 100

/-- Two rotations of `raceTok` about to start, with distinct fresh ids for
their replacement rows. -/
def raceInit : RaceState :=
  { db := raceDB,
    t1 := { tok := raceTok, myId := 11, phase := .atFind, found := none, result := none },
    t2 := { tok := raceTok, myId := 12, phase := .atFind, found := none, result := none } }

/-- Serial schedule: the first call runs to completion, then the second. -/
def serialOneTwo : List Bool := [false, false, false, false, true, true, true, true]

/-- Serial schedule: the second call runs to completion, then the first. -/
def serialTwoOne : List Bool := [true, true, true, true, false, false, false, false]

/-- The interleaving in which the second call passes its existence check
before the first call deletes the row, then performs its own writes. -/
def overlapSchedule : List Bool := [false, true, false, false, false, true, true, true]

/-- A candidate password of length 129 satisfying every criterion the spec
lists for the strength check. -/
def longStrongPassword : String := "Aa1!" ++ String.mk (List.replicate 125 'a')

/-- A rate limiter store with no hits recorded. -/
def rlEmpty : RateLimiterState := { windowStart := 0, hits := [] }

/-- Credentials carrying the existing operator's email with a wrong
password. -/
def wrongCreds : LoginRequest := { email := "ops@example.com", password := "WrongSecret1!" }

/-- A deactivated operator account. -/
def inactiveAdmin : Admin :=
  { id := 5, email := "gone@example.com", password := hashPassword "Secret1!",
    name := "Gone", role := "admin", isActive := false, lastLoginAt := none }

/-- Database holding only the deactivated account and one live unexpired
refresh-token row it owns. -/
def inactiveDB : DB :=
  { admins := [inactiveAdmin],
    refreshTokens := [{ id := 20, token := some { adminId := 5, tokenId := 20 },
                        adminId := 5, expiresAt := 1000 }],
    auditLogs := [],
    nextId := 21 }

/-- An active operator account used by the password-change scenarios. -/
def c4Admin : Admin :=
  { id := 3, email := "sec@example.com", password := hashPassword "OldSecret1!",
    name := "Sec", role := "admin", isActive := true, lastLoginAt := none }

/-- Database holding the active account and one of its refresh-token rows,
with no audit rows yet. -/
def c4DB : DB :=
  { admins := [c4Admin],
    refreshTokens := [{ id := 7, token := some { adminId := 3, tokenId := 7 },
                        adminId := 3, expiresAt := 1000 }],
    auditLogs := [],
    nextId := 8 }

/-- A well-formed password-change request with matching confirmation. -/
def c4Req : ChangePasswordRequest :=
  { currentPassword := "OldSecret1!", newPassword := "NewSecret1!", confirmPassword := "NewSecret1!" }

/-- A password-change request whose confirmation differs from the new
password. -/
def c7Req : ChangePasswordRequest :=
  { currentPassword := "OldSecret1!", newPassword := "NewSecret1!", confirmPassword := "Other1!" }

/-- In a well-formed state no row still carries the empty-string
placeholder token, so the unique-constraint guard on create never fires. -/
theorem wf_no_placeholder {db : DB} (hwf : db.wf) :
    db.refreshTokens.any (fun r => r.token == none) = false := by
  rw [List.any_eq_false]
  intro r hr
  have hc := hwf.2.2 r hr
  unfold RefreshTokenRecord.coherent at hc
  cases htok : r.token with
  | none => rw [htok] at hc; simp at hc
  | some t => simp [htok]

/-- When no row matches the presented token, refreshToken answers the
invalid-token failure and leaves the state untouched. -/
theorem refreshToken_not_found (db : DB) (tok : RefreshJwt) (now : Nat)
    (h : ∀ r ∈ db.refreshTokens, ¬(r.id = tok.tokenId ∧ r.token = some tok)) :
    AuthService.refreshToken db tok now = (.err "Invalid refresh token", db) := by
  have hnone : db.refreshTokens.find? (fun r => r.id == tok.tokenId && r.token == some tok) = none := by
    rw [List.find?_eq_none]
    intro r hr
    simpa using h r hr
  unfold AuthService.refreshToken
  rw [hnone]

/-- On the success path refreshToken returns the fresh access claims and a
refresh token embedding the newly created row's id. -/
theorem refreshToken_success_result
    (db : DB) (tok : RefreshJwt) (now : Nat) (rec0 : RefreshTokenRecord) (admin : Admin)
    (hfind : db.refreshTokens.find? (fun r => r.id == tok.tokenId && r.token == some tok) = some rec0)
    (hfresh : ¬ rec0.expiresAt < now)
    (hadmin : db.admins.find? (fun a => a.id == rec0.adminId) = some admin)
    (hactive : admin.isActive = true)
    (hclean : db.refreshTokens.any (fun r => r.token == none) = false) :
    (AuthService.refreshToken db tok now).1 =
      .ok (AuthService.generateAccessToken admin,
           { adminId := rec0.adminId, tokenId := db.nextId }) := by
  unfold AuthService.refreshToken
  rw [hfind]
  simp [if_neg hfresh, hadmin, hactive, hclean]

/-- On the success path refreshToken removes the consumed row: no row with
its id survives. -/
theorem refreshToken_success_deletes_old
    (db : DB) (tok : RefreshJwt) (now : Nat) (rec0 : RefreshTokenRecord) (admin : Admin)
    (hfind : db.refreshTokens.find? (fun r => r.id == tok.tokenId && r.token == some tok) = some rec0)
    (hfresh : ¬ rec0.expiresAt < now)
    (hadmin : db.admins.find? (fun a => a.id == rec0.adminId) = some admin)
    (hactive : admin.isActive = true)
    (hclean : db.refreshTokens.any (fun r => r.token == none) = false) :
    ∀ r ∈ (AuthService.refreshToken db tok now).2.refreshTokens, r.id ≠ rec0.id := by
  unfold AuthService.refreshToken
  rw [hfind]
  simp [if_neg hfresh, hadmin, hactive, hclean]
  intro r hr
  rcases hr with ⟨_, h⟩ | ⟨_, h⟩ <;> exact h

/-- C1: for a freshly issued refresh token (live unexpired row, active
owner) in a well-formed state, rotating twice in sequence with the same
token value yields exactly one success: the first call succeeds and the
second fails because the first deleted the backing row — the code's
record-already-gone failure (its message is the external face of the
spec's TokenReused). -/
theorem rotate_single_use
    (db : DB) (tok : RefreshJwt) (now : Nat) (rec0 : RefreshTokenRecord) (admin : Admin)
    (hwf : db.wf)
    (hfind : db.refreshTokens.find? (fun r => r.id == tok.tokenId && r.token == some tok) = some rec0)
    (hfresh : ¬ rec0.expiresAt < now)
    (hadmin : db.admins.find? (fun a => a.id == rec0.adminId) = some admin)
    (hactive : admin.isActive = true) :
    (AuthService.refreshToken db tok now).1.success = true ∧
    (AuthService.refreshToken (AuthService.refreshToken db tok now).2 tok now).1 =
      .err "Invalid refresh token" := by
  have hclean := wf_no_placeholder hwf
  have hid : rec0.id = tok.tokenId := by
    have hp := List.find?_some hfind
    simp only [Bool.and_eq_true, beq_iff_eq] at hp
    exact hp.1
  constructor
  · rw [refreshToken_success_result db tok now rec0 admin hfind hfresh hadmin hactive hclean]
    rfl
  · have hdel := refreshToken_success_deletes_old db tok now rec0 admin hfind hfresh hadmin hactive hclean
    have h2 := refreshToken_not_found (AuthService.refreshToken db tok now).2 tok now
      (by intro r hr hc
          exact hdel r hr (hc.1.trans hid.symm))
    rw [h2]

/-- C1 witness: the sequential double rotation on the concrete one-token
database. -/
theorem rotate_single_use_witness :
    (AuthService.refreshToken raceDB raceTok raceNow).1.success = true ∧
    (AuthService.refreshToken (AuthService.refreshToken raceDB raceTok raceNow).2 raceTok raceNow).1 =
      .err "Invalid refresh token" :=
  rotate_single_use raceDB raceTok raceNow
    { id := 10, token := some raceTok, adminId := 1, expiresAt := 1000 } raceAdmin
    (by decide) (by decide) (by decide) (by decide) (by decide)

/-- C2 counterexample: the rotation's check-delete-insert is not a single
indivisible atomic step. In the interleaving where the second call passes
its existence check before the first call deletes the row, the second call
fails yet its freshly inserted replacement row survives: the final state
matches neither serial execution of the two rotations, which an atomic
rotate would make impossible. -/
theorem rotate_not_serializable_counterexample :
    (raceRun raceNow raceInit overlapSchedule).t1.succeeded = true ∧
    (raceRun raceNow raceInit overlapSchedule).t2.succeeded = false ∧
    (raceRun raceNow raceInit overlapSchedule).db.refreshTokens.any (fun r => r.id == 12) = true ∧
    (raceRun raceNow raceInit overlapSchedule).db ≠ (raceRun raceNow raceInit serialOneTwo).db ∧
    (raceRun raceNow raceInit overlapSchedule).db ≠ (raceRun raceNow raceInit serialTwoOne).db := by
  decide

/-- C2 (amended): the check, delete and insert run as separate store
accesses with no transaction, so rotation is not indivisible — a losing
call can leave its replacement row behind — but exactly one of two
concurrent rotations sharing one freshly issued token reports success
under every interleaving, because deleting the already-deleted row throws
and the loser's failure is reported. -/
theorem rotate_race_exactly_one_success :
    ∀ s ∈ boolLists 8, s.count false = 4 →
      ((raceRun raceNow raceInit s).t1.succeeded ^^ (raceRun raceNow raceInit s).t2.succeeded) = true ∧
      (raceRun raceNow raceInit s).t1.result.isSome = true ∧
      (raceRun raceNow raceInit s).t2.result.isSome = true := by
  set_option maxRecDepth 10000 in decide

/-- C2 witness: the overlapping schedule is one of the covered
interleavings and exhibits exactly one success. -/
theorem rotate_race_exactly_one_success_witness :
    overlapSchedule ∈ boolLists 8 ∧ overlapSchedule.count false = 4 ∧
    (((raceRun raceNow raceInit overlapSchedule).t1.succeeded ^^
      (raceRun raceNow raceInit overlapSchedule).t2.succeeded) = true ∧
     (raceRun raceNow raceInit overlapSchedule).t1.result.isSome = true ∧
     (raceRun raceNow raceInit overlapSchedule).t2.result.isSome = true) :=
  ⟨by decide, by decide, rotate_race_exactly_one_success overlapSchedule (by decide) (by decide)⟩

/-- C3 counterexample: the three login-failure causes are not externally
identical — a deactivated account's failure body differs from the body
returned for an unknown email (and for a wrong password). -/
theorem login_inactive_distinct_counterexample :
    (AuthController.login inactiveDB { email := "nobody@example.com", password := "Secret1!" } 0 true).1.message =
      "Invalid email or password" ∧
    (AuthController.login inactiveDB { email := "gone@example.com", password := "Secret1!" } 0 true).1.message =
      "Account is disabled" ∧
    (AuthController.login inactiveDB { email := "gone@example.com", password := "Secret1!" } 0 true).1.message ≠
      (AuthController.login inactiveDB { email := "nobody@example.com", password := "Secret1!" } 0 true).1.message := by
  decide

/-- C3 (amended): login failures for an unknown email and for a wrong
password on an active account return the identical 401 response body, so
those two causes are indistinguishable; a deactivated account however
returns 401 with the distinct body, so that cause is distinguishable. -/
theorem login_failure_uniform_responses
    (db : DB) (credentials : LoginRequest) (now : Nat) (auditOk : Bool) :
    (db.admins.find? (fun a => a.email == credentials.email) = none →
      (AuthController.login db credentials now auditOk).1 =
        { status := 401, success := false, message := "Invalid email or password" }) ∧
    (∀ admin, db.admins.find? (fun a => a.email == credentials.email) = some admin →
      admin.isActive = true →
      comparePassword credentials.password admin.password = false →
      (AuthController.login db credentials now auditOk).1 =
        { status := 401, success := false, message := "Invalid email or password" }) ∧
    (∀ admin, db.admins.find? (fun a => a.email == credentials.email) = some admin →
      admin.isActive = false →
      (AuthController.login db credentials now auditOk).1 =
        { status := 401, success := false, message := "Account is disabled" }) := by
  refine ⟨?_, ?_, ?_⟩
  · intro h
    unfold AuthController.login AuthService.login
    rw [h]
  · intro admin h hact hcmp
    unfold AuthController.login AuthService.login
    rw [h]
    simp [hact, hcmp]
  · intro admin h hinact
    unfold AuthController.login AuthService.login
    rw [h]
    simp [hinact]

/-- C3 witness: the three failure shapes at concrete databases and
credentials. -/
theorem login_failure_uniform_responses_witness :
    (AuthController.login inactiveDB { email := "nobody@example.com", password := "Secret1!" } 0 true).1 =
      { status := 401, success := false, message := "Invalid email or password" } ∧
    (AuthController.login raceDB wrongCreds raceNow true).1 =
      { status := 401, success := false, message := "Invalid email or password" } ∧
    (AuthController.login inactiveDB { email := "gone@example.com", password := "Secret1!" } 0 true).1 =
      { status := 401, success := false, message := "Account is disabled" } :=
  ⟨(login_failure_uniform_responses inactiveDB { email := "nobody@example.com", password := "Secret1!" } 0 true).1
     (by decide),
   (login_failure_uniform_responses raceDB wrongCreds raceNow true).2.1 raceAdmin
     (by decide) (by decide) (by decide),
   (login_failure_uniform_responses inactiveDB { email := "gone@example.com", password := "Secret1!" } 0 true).2.2
     inactiveAdmin (by decide) (by decide)⟩

/-- C4 counterexample: with the audit store failing, changePassword still
reports success with no audit row written, and revokeAllSessions still
answers 200 with no audit row written. -/
theorem changePassword_audit_loss_counterexample :
    (AuthService.changePassword c4DB 3 c4Req false).1.success = true ∧
    (AuthService.changePassword c4DB 3 c4Req false).2.auditLogs = [] ∧
    (AuthController.revokeAllSessions c4DB 3 false).1.1.status = 200 ∧
    (AuthController.revokeAllSessions c4DB 3 false).2.auditLogs = [] := by decide

/-- C4 (amended): a failing audit-trail write does not abort the critical
transitions — createAuditLog catches the storage failure and returns a
failure response that both changePassword and revokeAllSessions discard,
so each reports success while the audit log stays unwritten. -/
theorem audit_failure_not_blocking
    (db : DB) (adminId : Nat) (pd : ChangePasswordRequest) (admin : Admin)
    (hfind : db.admins.find? (fun a => a.id == adminId) = some admin)
    (hcur : comparePassword pd.currentPassword admin.password = true)
    (hstrong : PasswordUtils.validatePasswordStrength pd.newPassword = true) :
    ((AuthService.changePassword db adminId pd false).1.success = true ∧
     (AuthService.changePassword db adminId pd false).2.auditLogs = db.auditLogs) ∧
    ((AuthController.revokeAllSessions db adminId false).1.1.status = 200 ∧
     (AuthController.revokeAllSessions db adminId false).2.auditLogs = db.auditLogs) := by
  constructor
  · unfold AuthService.changePassword
    rw [hfind]
    simp [hcur, hstrong, AuditService.createAuditLog, SResp.success]
  · unfold AuthController.revokeAllSessions
    simp [AuditService.createAuditLog]

/-- C4 witness: the amended behaviour at the concrete database. -/
theorem audit_failure_not_blocking_witness :
    ((AuthService.changePassword c4DB 3 c4Req false).1.success = true ∧
     (AuthService.changePassword c4DB 3 c4Req false).2.auditLogs = c4DB.auditLogs) ∧
    ((AuthController.revokeAllSessions c4DB 3 false).1.1.status = 200 ∧
     (AuthController.revokeAllSessions c4DB 3 false).2.auditLogs = c4DB.auditLogs) :=
  audit_failure_not_blocking c4DB 3 c4Req c4Admin (by decide) (by decide) (by decide)

/-- C5: the login route is wired to adminRateLimit (budget 200 per
15-minute window), not to the defined-but-unused authRateLimit (budget
10), so eleven same-client wrong-credential attempts inside one window
all reach business logic and return 401 — none is the 429 the spec's
10-per-window budget requires; under the authRateLimit budget the code
defines for authentication endpoints, attempt 11 would be denied with
429. -/
theorem auth_endpoints_use_admin_budget :
    loginAttemptStatuses adminRateLimitMax rlEmpty raceDB wrongCreds "203.0.113.7" raceNow true 11 =
      List.replicate 11 401 ∧
    loginAttemptStatuses authRateLimitMax rlEmpty raceDB wrongCreds "203.0.113.7" raceNow true 11 =
      List.replicate 10 401 ++ [429] := by decide

/-- A successful changePassword leaves exactly the refresh-token rows of
other owners: every row of the calling owner is deleted. -/
theorem changePassword_success_tokens
    (db : DB) (adminId : Nat) (pd : ChangePasswordRequest) (auditOk : Bool)
    (hsucc : (AuthService.changePassword db adminId pd auditOk).1.success = true) :
    (AuthService.changePassword db adminId pd auditOk).2.refreshTokens =
      db.refreshTokens.filter (fun r => r.adminId != adminId) := by
  unfold AuthService.changePassword at hsucc ⊢
  cases hfind : db.admins.find? (fun a => a.id == adminId) with
  | none => rw [hfind] at hsucc; simp [SResp.success] at hsucc
  | some admin =>
    rw [hfind] at hsucc
    by_cases hcur : comparePassword pd.currentPassword admin.password = true
    · by_cases hstrong : PasswordUtils.validatePasswordStrength pd.newPassword = true
      · simp [hcur, hstrong, AuditService.createAuditLog]
        split <;> rfl
      · rw [Bool.not_eq_true] at hstrong
        simp [hcur, hstrong, SResp.success] at hsucc
    · rw [Bool.not_eq_true] at hcur
      simp [hcur, SResp.success] at hsucc

/-- C6: after changePassword succeeds for an owner in a well-formed state,
no refresh-token row of that owner remains, so rotating any refresh token
issued to that owner before the change fails with the invalid-token
error. -/
theorem changePassword_invalidates_rotation
    (db : DB) (adminId : Nat) (pd : ChangePasswordRequest) (auditOk : Bool)
    (hwf : db.wf)
    (hsucc : (AuthService.changePassword db adminId pd auditOk).1.success = true)
    (tok : RefreshJwt) (now : Nat) (hown : tok.adminId = adminId) :
    (AuthService.refreshToken (AuthService.changePassword db adminId pd auditOk).2 tok now).1 =
      .err "Invalid refresh token" := by
  have htok := changePassword_success_tokens db adminId pd auditOk hsucc
  have h2 := refreshToken_not_found (AuthService.changePassword db adminId pd auditOk).2 tok now
    (by intro r hr hc
        rw [htok, List.mem_filter] at hr
        have hrne : r.adminId ≠ adminId := by simpa using hr.2
        have hcoh := hwf.2.2 r hr.1
        unfold RefreshTokenRecord.coherent at hcoh
        rw [hc.2] at hcoh
        simp only [Bool.and_eq_true, beq_iff_eq] at hcoh
        exact hrne (hcoh.2.symm.trans hown))
  rw [h2]

/-- C6 witness: the concrete owner's pre-change token is rejected after
the password change. -/
theorem changePassword_invalidates_rotation_witness :
    (AuthService.refreshToken (AuthService.changePassword c4DB 3 c4Req true).2
      { adminId := 3, tokenId := 7 } 100).1 = .err "Invalid refresh token" :=
  changePassword_invalidates_rotation c4DB 3 c4Req true (by decide) (by decide)
    { adminId := 3, tokenId := 7 } 100 rfl

/-- C7: a change-password request whose confirmation differs from the new
password is rejected by the validation chain with a 400 reply before the
service runs, and the database is left exactly unchanged. -/
theorem confirm_mismatch_rejected
    (db : DB) (adminId : Nat) (req : ChangePasswordRequest) (auditOk : Bool)
    (hne : req.confirmPassword ≠ req.newPassword) :
    (changePasswordRoute db adminId req auditOk).1 =
      { status := 400, success := false, message := "Validation failed" } ∧
    (changePasswordRoute db adminId req auditOk).2 = db := by
  have hbeq : (req.confirmPassword == req.newPassword) = false := by
    simpa using hne
  unfold changePasswordRoute adminChangePasswordValidation
  simp [hbeq]

/-- C7 witness: the concrete mismatched request is rejected with the
database untouched. -/
theorem confirm_mismatch_rejected_witness :
    (changePasswordRoute c4DB 3 c7Req true).1 =
      { status := 400, success := false, message := "Validation failed" } ∧
    (changePasswordRoute c4DB 3 c7Req true).2 = c4DB :=
  confirm_mismatch_rejected c4DB 3 c7Req true (by decide)

/-- C8 counterexample: a 129-character candidate that satisfies every
criterion the claim lists — length at least 8, upper, lower, digit,
symbol, not denylisted — is nevertheless rejected by
validatePasswordStrength, which also enforces a 128-character cap. -/
theorem password_strength_length_cap_counterexample :
    (8 ≤ longStrongPassword.length ∧
     PasswordUtils.containsClass longStrongPassword PasswordUtils.isUpperAZ = true ∧
     PasswordUtils.containsClass longStrongPassword PasswordUtils.isLowerAZ = true ∧
     PasswordUtils.containsClass longStrongPassword PasswordUtils.isDigit09 = true ∧
     PasswordUtils.containsClass longStrongPassword PasswordUtils.isSpecial = true ∧
     PasswordUtils.commonPasswords.contains (PasswordUtils.jsToLower longStrongPassword) = false) ∧
    PasswordUtils.validatePasswordStrength longStrongPassword = false := by
  set_option maxRecDepth 40000 in decide

/-- C8 (amended): validatePasswordStrength accepts a candidate exactly
when its length is between 8 and 128, it contains an upper-case letter, a
lower-case letter, a digit and a symbol, and its lower-cased form is not
in the fixed denylist of common secrets. -/
theorem validatePasswordStrength_spec (p : String) :
    PasswordUtils.validatePasswordStrength p = true ↔
      (8 ≤ p.length ∧ p.length ≤ 128 ∧
       PasswordUtils.containsClass p PasswordUtils.isUpperAZ = true ∧
       PasswordUtils.containsClass p PasswordUtils.isLowerAZ = true ∧
       PasswordUtils.containsClass p PasswordUtils.isDigit09 = true ∧
       PasswordUtils.containsClass p PasswordUtils.isSpecial = true ∧
       PasswordUtils.commonPasswords.contains (PasswordUtils.jsToLower p) = false) := by
  unfold PasswordUtils.validatePasswordStrength PasswordUtils.strengthErrors
  simp [List.isEmpty_iff, List.append_eq_nil, ite_eq_right_iff, Nat.not_lt]

/-- C8 witness: a compliant candidate is accepted via the
characterization. -/
theorem validatePasswordStrength_spec_witness :
    PasswordUtils.validatePasswordStrength "Secret1!" = true :=
  (validatePasswordStrength_spec "Secret1!").mpr (by decide)

/-- C9: logout is idempotent — when no row matches the token and owner it
succeeds leaving the state exactly unchanged, and in a well-formed state
running logout twice with the same arguments equals running it once, the
second call succeeding as a no-op. -/
theorem logout_idempotent
    (db : DB) (tok : RefreshJwt) (adminId : Nat) (auditOk : Bool) (hwf : db.wf) :
    (db.refreshTokens.find? (fun r => r.token == some tok && r.adminId == adminId) = none →
      AuthService.logout db tok adminId auditOk = (.ok true, db)) ∧
    AuthService.logout (AuthService.logout db tok adminId auditOk).2 tok adminId auditOk =
      (.ok true, (AuthService.logout db tok adminId auditOk).2) := by
  have hnoop : ∀ d : DB,
      d.refreshTokens.find? (fun r => r.token == some tok && r.adminId == adminId) = none →
      AuthService.logout d tok adminId auditOk = (.ok true, d) := by
    intro d h
    unfold AuthService.logout
    rw [h]
  refine ⟨hnoop db, ?_⟩
  cases hfind : db.refreshTokens.find? (fun r => r.token == some tok && r.adminId == adminId) with
  | none =>
    rw [hnoop db hfind]
    exact hnoop db hfind
  | some rec0 =>
    have hmem := List.mem_of_find?_eq_some hfind
    have hp := List.find?_some hfind
    simp only [Bool.and_eq_true, beq_iff_eq] at hp
    have hTok : (AuthService.logout db tok adminId auditOk).2.refreshTokens =
        db.refreshTokens.filter (fun r => r.id != rec0.id) := by
      unfold AuthService.logout
      rw [hfind]
      simp [AuditService.logAdminLogout, AuditService.createAuditLog]
      split <;> rfl
    have habsent2 : (AuthService.logout db tok adminId auditOk).2.refreshTokens.find?
        (fun r => r.token == some tok && r.adminId == adminId) = none := by
      rw [hTok, List.find?_eq_none]
      intro r hr
      rw [List.mem_filter] at hr
      have hrne : r.id ≠ rec0.id := by simpa using hr.2
      simp only [Bool.and_eq_true, beq_iff_eq, not_and]
      intro hrtok hradm
      have hcoh_r := hwf.2.2 r hr.1
      have hcoh_0 := hwf.2.2 rec0 hmem
      unfold RefreshTokenRecord.coherent at hcoh_r hcoh_0
      rw [hrtok] at hcoh_r
      rw [hp.1] at hcoh_0
      simp only [Bool.and_eq_true, beq_iff_eq] at hcoh_r hcoh_0
      exact absurd (hcoh_r.1.symm.trans hcoh_0.1) hrne
    exact hnoop _ habsent2

/-- C9 witness: logging out an absent token succeeds unchanged, and the
double logout of a live token equals the single logout. -/
theorem logout_idempotent_witness :
    AuthService.logout raceDB { adminId := 9, tokenId := 9 } 1 true = (.ok true, raceDB) ∧
    AuthService.logout (AuthService.logout raceDB raceTok 1 true).2 raceTok 1 true =
      (.ok true, (AuthService.logout raceDB raceTok 1 true).2) :=
  ⟨(logout_idempotent raceDB { adminId := 9, tokenId := 9 } 1 true (by decide)).1 (by decide),
   (logout_idempotent raceDB raceTok 1 true (by decide)).2⟩

/-- C10: rotating a token whose row exists and is unexpired but whose
owner account is deactivated fails with the account-disabled error and
changes nothing — no new tokens are issued. -/
theorem rotate_rejects_inactive_account
    (db : DB) (tok : RefreshJwt) (now : Nat) (rec0 : RefreshTokenRecord) (admin : Admin)
    (hfind : db.refreshTokens.find? (fun r => r.id == tok.tokenId && r.token == some tok) = some rec0)
    (hfresh : ¬ rec0.expiresAt < now)
    (hadmin : db.admins.find? (fun a => a.id == rec0.adminId) = some admin)
    (hinactive : admin.isActive = false) :
    AuthService.refreshToken db tok now = (.err "Account is disabled", db) := by
  unfold AuthService.refreshToken
  rw [hfind]
  simp [if_neg hfresh, hadmin, hinactive]

/-- C10 witness: the concrete deactivated owner's live token is rejected
with the database untouched. -/
theorem rotate_rejects_inactive_account_witness :
    AuthService.refreshToken inactiveDB { adminId := 5, tokenId := 20 } 100 =
      (.err "Account is disabled", inactiveDB) :=
  rotate_rejects_inactive_account inactiveDB { adminId := 5, tokenId := 20 } 100
    { id := 20, token := some { adminId := 5, tokenId := 20 }, adminId := 5, expiresAt := 1000 }
    inactiveAdmin (by decide) (by decide) (by decide) (by decide)
